import Mathlib

/-!
Verification of the tower-resolve composition layer (src/lib.rs).

The Rust crate composes a Resolver (logical target → SocketAddr, async) and a
ConnectService (SocketAddr → connection, async) into a single Connector whose
ConnectFuture drives a two-state machine: Resolving then Connecting.

Shallow embedding: a futures-0.1 future is a state together with a poll
function of type state → state × Poll, where Poll is Result<Async<T>, E>
(here: Except err (Async item)).  The two capability traits become structures
bundling the method with the poll function of its returned future.  Mutable
references become explicit state passing; Clone on the connect service is
value copying.
-/

namespace TowerResolve

/-- futures 0.1: Async is Ready(value) or NotReady. -/
inductive Async (α : Type) : Type where
  | Ready : α → Async α
  | NotReady : Async α
  deriving DecidableEq

/-- Rust map_err on Result (used at line 115 of src/lib.rs). -/
def mapErr {ε ε2 α : Type} (g : ε → ε2) : Except ε α → Except ε2 α
  | Except.error e => Except.error (g e)
  | Except.ok a => Except.ok a

/-- std::net::SocketAddr, modelled concretely as an IPv4 address and a port. -/
structure SocketAddr where
  ip : Nat × Nat × Nat × Nat
  port : Nat
  deriving DecidableEq

/-- Trait ConnectService<A>: connect(&mut self, target: A) -> Self::Future.
σS is the service state, σCF the state of its Future, α the address type,
ρ its Response, ε its Error.  pollF is the poll of the associated Future. -/
structure ConnectService (σS σCF α ρ ε : Type) where
  connect : σS → α → σS × σCF
  pollF : σCF → σCF × Except ε (Async ρ)

/-- Trait Resolve<Target>: lookup(&mut self, target) -> Self::Future, whose
Future yields a SocketAddr.  σR is the resolver state, σRF its Future state. -/
structure Resolve (σR σRF τ ε : Type) where
  lookup : σR → τ → σR × σRF
  pollF : σRF → σRF × Except ε (Async SocketAddr)

/-- enum ConnectorError: Resolve(R::Error) | Connect(C::Error). -/
inductive ConnectorError (εR εC : Type) : Type where
  | Resolve : εR → ConnectorError εR εC
  | Connect : εC → ConnectorError εR εC
  deriving DecidableEq

/-- struct Connector { connect: C, resolver: R }. -/
structure Connector (σS σR : Type) where
  connect : σS
  resolver : σR

/-- enum State: Resolving(R::Future) | Connecting(C::Future). -/
inductive State (σRF σCF : Type) : Type where
  | Resolving : σRF → State σRF σCF
  | Connecting : σCF → State σRF σCF

/-- struct ConnectFuture { state: State, connector: C }. -/
structure ConnectFuture (σRF σCF σS : Type) where
  state : State σRF σCF
  connector : σS

variable {σS σCF σR σRF τ ρ εR εC : Type}

/-- True exactly on the Connecting variant. -/
def State.isConnecting : State σRF σCF → Bool
  | State.Connecting _ => true
  | State.Resolving _ => false

/-- True exactly on the Resolving variant. -/
def State.isResolving : State σRF σCF → Bool
  | State.Resolving _ => true
  | State.Connecting _ => false

/-- Connector::connect (impl ConnectService for Connector, lines 56-61):
state = Resolving(self.resolver.lookup(target)), connector = self.connect.clone().
Cloning the service is value copying in the embedding. -/
def Connector.connectImpl (R : Resolve σR σRF τ εR) (self : Connector σS σR)
    (target : τ) : Connector σS σR × ConnectFuture σRF σCF σS :=
  let p := R.lookup self.resolver target
  ({ connect := self.connect, resolver := p.1 },
   { state := State.Resolving p.2, connector := self.connect })

/-- ConnectFuture::poll, lines 99-119, with the loop unrolled: the Resolving
arm either returns (NotReady / resolver error) or installs the connect future
and falls through (via continue) to the Connecting arm, which always returns. -/
def ConnectFuture.poll (C : ConnectService σS σCF SocketAddr ρ εC)
    (R : Resolve σR σRF τ εR) (f : ConnectFuture σRF σCF σS) :
    ConnectFuture σRF σCF σS × Except (ConnectorError εR εC) (Async ρ) :=
  match f.state with
  | State.Resolving rf =>
    match R.pollF rf with
    | (rf2, Except.ok Async.NotReady) =>
      ({ state := State.Resolving rf2, connector := f.connector },
       Except.ok Async.NotReady)
    | (rf2, Except.error e) =>
      ({ state := State.Resolving rf2, connector := f.connector },
       Except.error (ConnectorError.Resolve e))
    | (_, Except.ok (Async.Ready addr)) =>
      let p := C.connect f.connector addr
      let q := C.pollF p.2
      ({ state := State.Connecting q.1, connector := p.1 },
       mapErr ConnectorError.Connect q.2)
  | State.Connecting cf =>
    let q := C.pollF cf
    ({ state := State.Connecting q.1, connector := f.connector },
     mapErr ConnectorError.Connect q.2)

/-- ConnectFuture::poll with its loop kept explicit: fuel counts loop
iterations; returning none means the fuel ran out before the loop returned.
Each iteration is exactly one go round the Rust loop; the Ready branch of the
Resolving arm is the continue. -/
def ConnectFuture.pollLoop (C : ConnectService σS σCF SocketAddr ρ εC)
    (R : Resolve σR σRF τ εR) :
    Nat → ConnectFuture σRF σCF σS →
      ConnectFuture σRF σCF σS × Option (Except (ConnectorError εR εC) (Async ρ))
  | 0, f => (f, none)
  | n + 1, f =>
    match f.state with
    | State.Resolving rf =>
      match R.pollF rf with
      | (rf2, Except.ok Async.NotReady) =>
        ({ state := State.Resolving rf2, connector := f.connector },
         some (Except.ok Async.NotReady))
      | (rf2, Except.error e) =>
        ({ state := State.Resolving rf2, connector := f.connector },
         some (Except.error (ConnectorError.Resolve e)))
      | (_, Except.ok (Async.Ready addr)) =>
        let p := C.connect f.connector addr
        ConnectFuture.pollLoop C R n
          { state := State.Connecting p.2, connector := p.1 }
    | State.Connecting cf =>
      let q := C.pollF cf
      ({ state := State.Connecting q.1, connector := f.connector },
       some (mapErr ConnectorError.Connect q.2))

/-- Run a bare future to completion: poll it at most n times, returning the
final future state and its result if it becomes ready (or errors) in time. -/
def runFut {σ ε α : Type} (p : σ → σ × Except ε (Async α)) :
    Nat → σ → Option (σ × Except ε α)
  | 0, _ => none
  | n + 1, s =>
    match p s with
    | (s2, Except.ok (Async.Ready a)) => some (s2, Except.ok a)
    | (s2, Except.ok Async.NotReady) => runFut p n s2
    | (s2, Except.error e) => some (s2, Except.error e)

/-- Drive a ConnectFuture with up to n external advancement calls (polls
performed by the caller's scheduler), as futures 0.1 executors do. -/
def drive (C : ConnectService σS σCF SocketAddr ρ εC) (R : Resolve σR σRF τ εR) :
    Nat → ConnectFuture σRF σCF σS →
      Option (ConnectFuture σRF σCF σS × Except (ConnectorError εR εC) ρ)
  | 0, _ => none
  | n + 1, f =>
    match ConnectFuture.poll C R f with
    | (f2, Except.ok (Async.Ready conn)) => some (f2, Except.ok conn)
    | (f2, Except.ok Async.NotReady) => drive C R n f2
    | (f2, Except.error e) => some (f2, Except.error e)

/-- Apply n external poll calls to a ConnectFuture, keeping only the future. -/
def stepN (C : ConnectService σS σCF SocketAddr ρ εC) (R : Resolve σR σRF τ εR) :
    Nat → ConnectFuture σRF σCF σS → ConnectFuture σRF σCF σS
  | 0, f => f
  | n + 1, f => stepN C R n (ConnectFuture.poll C R f).1

/-- Instrumented establisher (collaborator test double): same behaviour as C,
but its state additionally records the number of connect invocations and the
addresses they were given. -/
def ConnectService.counting (C : ConnectService σS σCF α ρ ε) :
    ConnectService (σS × Nat × List α) σCF α ρ ε where
  connect := fun s a =>
    let p := C.connect s.1 a
    ((p.1, s.2.1 + 1, s.2.2 ++ [a]), p.2)
  pollF := C.pollF

/-- Instrumented resolver: records the number of lookup invocations and the
targets they were given. -/
def Resolve.counting (R : Resolve σR σRF τ ε) :
    Resolve (σR × Nat × List τ) σRF τ ε where
  lookup := fun s t =>
    let p := R.lookup s.1 t
    ((p.1, s.2.1 + 1, s.2.2 ++ [t]), p.2)
  pollF := R.pollF

/-- Instrumented resolver whose lookup future additionally counts how often it
has been polled (0 when freshly returned by lookup). -/
def Resolve.pollCounting (R : Resolve σR σRF τ ε) :
    Resolve σR (σRF × Nat) τ ε where
  lookup := fun r t => ((R.lookup r t).1, ((R.lookup r t).2, 0))
  pollF := fun s => (((R.pollF s.1).1, s.2 + 1), (R.pollF s.1).2)

/-! Poll step lemmas: how one ConnectFuture::poll call behaves in each state. -/

theorem poll_connecting (C : ConnectService σS σCF SocketAddr ρ εC)
    (R : Resolve σR σRF τ εR) (cf : σCF) (s : σS) :
    ConnectFuture.poll C R { state := State.Connecting cf, connector := s } =
      ({ state := State.Connecting (C.pollF cf).1, connector := s },
       mapErr ConnectorError.Connect (C.pollF cf).2) := rfl

theorem poll_resolving_notReady (C : ConnectService σS σCF SocketAddr ρ εC)
    (R : Resolve σR σRF τ εR) (rf rf2 : σRF) (s : σS)
    (h : R.pollF rf = (rf2, Except.ok Async.NotReady)) :
    ConnectFuture.poll C R { state := State.Resolving rf, connector := s } =
      ({ state := State.Resolving rf2, connector := s }, Except.ok Async.NotReady) := by
  simp [ConnectFuture.poll, h]

theorem poll_resolving_error (C : ConnectService σS σCF SocketAddr ρ εC)
    (R : Resolve σR σRF τ εR) (rf rf2 : σRF) (s : σS) (e : εR)
    (h : R.pollF rf = (rf2, Except.error e)) :
    ConnectFuture.poll C R { state := State.Resolving rf, connector := s } =
      ({ state := State.Resolving rf2, connector := s },
       Except.error (ConnectorError.Resolve e)) := by
  simp [ConnectFuture.poll, h]

theorem poll_resolving_ready (C : ConnectService σS σCF SocketAddr ρ εC)
    (R : Resolve σR σRF τ εR) (rf rf2 : σRF) (s : σS) (addr : SocketAddr)
    (h : R.pollF rf = (rf2, Except.ok (Async.Ready addr))) :
    ConnectFuture.poll C R { state := State.Resolving rf, connector := s } =
      ({ state := State.Connecting (C.pollF (C.connect s addr).2).1,
         connector := (C.connect s addr).1 },
       mapErr ConnectorError.Connect (C.pollF (C.connect s addr).2).2) := by
  simp [ConnectFuture.poll, h]

/-! Drive step lemmas. -/

theorem drive_succ_ready (C : ConnectService σS σCF SocketAddr ρ εC)
    (R : Resolve σR σRF τ εR) (n : Nat) (f f2 : ConnectFuture σRF σCF σS) (conn : ρ)
    (h : ConnectFuture.poll C R f = (f2, Except.ok (Async.Ready conn))) :
    drive C R (n + 1) f = some (f2, Except.ok conn) := by
  simp [drive, h]

theorem drive_succ_notReady (C : ConnectService σS σCF SocketAddr ρ εC)
    (R : Resolve σR σRF τ εR) (n : Nat) (f f2 : ConnectFuture σRF σCF σS)
    (h : ConnectFuture.poll C R f = (f2, Except.ok Async.NotReady)) :
    drive C R (n + 1) f = drive C R n f2 := by
  simp [drive, h]

theorem drive_succ_error (C : ConnectService σS σCF SocketAddr ρ εC)
    (R : Resolve σR σRF τ εR) (n : Nat) (f f2 : ConnectFuture σRF σCF σS)
    (e : ConnectorError εR εC)
    (h : ConnectFuture.poll C R f = (f2, Except.error e)) :
    drive C R (n + 1) f = some (f2, Except.error e) := by
  simp [drive, h]

theorem drive_poll_congr (C : ConnectService σS σCF SocketAddr ρ εC)
    (R : Resolve σR σRF τ εR) (n : Nat) (f g : ConnectFuture σRF σCF σS)
    (h : ConnectFuture.poll C R f = ConnectFuture.poll C R g) :
    drive C R (n + 1) f = drive C R (n + 1) g := by
  simp only [drive, h]

theorem drive_mono (C : ConnectService σS σCF SocketAddr ρ εC)
    (R : Resolve σR σRF τ εR) :
    ∀ (n : Nat) (f : ConnectFuture σRF σCF σS)
      (r : ConnectFuture σRF σCF σS × Except (ConnectorError εR εC) ρ),
      drive C R n f = some r → drive C R (n + 1) f = some r := by
  intro n
  induction n with
  | zero => intro f r h; simp [drive] at h
  | succ n ih =>
    intro f r h
    rcases hp : ConnectFuture.poll C R f with ⟨f2, pr⟩
    rcases pr with e | a
    · rw [drive_succ_error C R n f f2 e hp] at h
      rw [drive_succ_error C R (n + 1) f f2 e hp]
      exact h
    · rcases a with conn | _
      · rw [drive_succ_ready C R n f f2 conn hp] at h
        rw [drive_succ_ready C R (n + 1) f f2 conn hp]
        exact h
      · rw [drive_succ_notReady C R n f f2 hp] at h
        rw [drive_succ_notReady C R (n + 1) f f2 hp]
        exact ih f2 r h

theorem drive_le (C : ConnectService σS σCF SocketAddr ρ εC)
    (R : Resolve σR σRF τ εR) (f : ConnectFuture σRF σCF σS)
    (r : ConnectFuture σRF σCF σS × Except (ConnectorError εR εC) ρ)
    {n m : Nat} (hnm : n ≤ m) (h : drive C R n f = some r) :
    drive C R m f = some r := by
  induction hnm with
  | refl => exact h
  | step _ ih => exact drive_mono C R _ f r ih

/-- Driving a ConnectFuture that is already Connecting is exactly running the
inner connect future, with errors tagged ConnectorError.Connect. -/
theorem drive_connecting (C : ConnectService σS σCF SocketAddr ρ εC)
    (R : Resolve σR σRF τ εR) :
    ∀ (n : Nat) (cf : σCF) (s : σS),
      drive C R n { state := State.Connecting cf, connector := s } =
        Option.map (fun q => ({ state := State.Connecting q.1, connector := s },
            mapErr ConnectorError.Connect q.2)) (runFut C.pollF n cf) := by
  intro n
  induction n with
  | zero => intro cf s; rfl
  | succ n ih =>
    intro cf s
    rcases hq : C.pollF cf with ⟨cf2, r⟩
    rcases r with e | a
    · rw [drive_succ_error C R n _ _ _
        (by rw [poll_connecting, hq]; rfl)]
      simp [runFut, hq, mapErr]
    · rcases a with conn | _
      · rw [drive_succ_ready C R n _ _ _
          (by rw [poll_connecting, hq]; rfl)]
        simp [runFut, hq, mapErr]
      · rw [drive_succ_notReady C R n _ _
          (by rw [poll_connecting, hq]; rfl)]
        rw [ih cf2 s]
        simp [runFut, hq]

/-- Driving from Resolving: once the lookup future resolves to an address, the
connect future started on that address is run to its own result, tagged
Connect on error.  The final connector state is the one produced by the single
connect call on the resolved address. -/
theorem drive_resolve_then_connect (C : ConnectService σS σCF SocketAddr ρ εC)
    (R : Resolve σR σRF τ εR) :
    ∀ (k m : Nat) (rf rf2 : σRF) (addr : SocketAddr) (s : σS) (cf2 : σCF)
      (res : Except εC ρ),
      runFut R.pollF k rf = some (rf2, Except.ok addr) →
      runFut C.pollF m (C.connect s addr).2 = some (cf2, res) →
      drive C R (k + m) { state := State.Resolving rf, connector := s } =
        some ({ state := State.Connecting cf2, connector := (C.connect s addr).1 },
          mapErr ConnectorError.Connect res) := by
  intro k
  induction k with
  | zero => intro m rf rf2 addr s cf2 res h1 h2; simp [runFut] at h1
  | succ k ih =>
    intro m rf rf2 addr s cf2 res h1 h2
    rcases hr : R.pollF rf with ⟨rf1, r⟩
    rcases r with e | a
    · simp [runFut, hr] at h1
    · rcases a with addr0 | _
      · simp [runFut, hr] at h1
        obtain ⟨hrf, haddr⟩ := h1
        subst hrf; subst haddr
        have hkm : k + 1 + m = k + m + 1 := by omega
        rw [hkm]
        rw [drive_poll_congr C R (k + m)
          { state := State.Resolving rf, connector := s }
          { state := State.Connecting (C.connect s addr0).2,
            connector := (C.connect s addr0).1 }
          (by rw [poll_resolving_ready C R rf rf1 s addr0 hr, poll_connecting])]
        have hcon : drive C R m
            { state := State.Connecting (C.connect s addr0).2,
              connector := (C.connect s addr0).1 } =
            some ({ state := State.Connecting cf2,
                      connector := (C.connect s addr0).1 },
                  mapErr ConnectorError.Connect res) := by
          rw [drive_connecting C R m]
          rw [h2]
          rfl
        exact drive_le C R _ _ (by omega) hcon
      · simp [runFut, hr] at h1
        have hkm : k + 1 + m = k + m + 1 := by omega
        rw [hkm]
        rw [drive_succ_notReady C R (k + m) _ _
          (poll_resolving_notReady C R rf rf1 s hr)]
        exact ih m rf1 rf2 addr s cf2 res h1 h2

/-! Concrete test doubles used by the witnesses. -/

/-- 10.0.0.5:443, the address of the concrete scenario in the spec. -/
def addrA : SocketAddr := { ip := (10, 0, 0, 5), port := 443 }

/-- Resolver double whose lookup future is immediately ready with addrA. -/
def readyResolve : Resolve Unit Unit Unit Unit where
  lookup := fun _ _ => ((), ())
  pollF := fun _ => ((), Except.ok (Async.Ready addrA))

/-- Establisher double whose connect future is immediately ready with 42. -/
def readyConnect : ConnectService Unit Unit SocketAddr Nat Unit where
  connect := fun _ _ => ((), ())
  pollF := fun _ => ((), Except.ok (Async.Ready 42))

/-- Resolver double whose lookup future always fails with error 3. -/
def errResolve : Resolve Unit Unit Unit Nat where
  lookup := fun _ _ => ((), ())
  pollF := fun _ => ((), Except.error 3)

/-- Establisher double whose connect future always fails with error 5. -/
def errConnect : ConnectService Unit Unit SocketAddr Nat Nat where
  connect := fun _ _ => ((), ())
  pollF := fun _ => ((), Except.error 5)

/-- Claim C1: for every target for which the resolver's lookup future resolves
to an address and the establisher's connect future (for that address) resolves
to a connection, driving the ConnectFuture to completion yields terminal
success, and the connection returned is exactly the value produced by the
establisher's connect future for the resolved address. -/
theorem connector_success_yields_establisher_connection
    (C : ConnectService σS σCF SocketAddr ρ εC) (R : Resolve σR σRF τ εR)
    (k m : Nat) (rf rf2 : σRF) (addr : SocketAddr) (s : σS) (cf2 : σCF) (conn : ρ)
    (h1 : runFut R.pollF k rf = some (rf2, Except.ok addr))
    (h2 : runFut C.pollF m (C.connect s addr).2 = some (cf2, Except.ok conn)) :
    drive C R (k + m) { state := State.Resolving rf, connector := s } =
      some ({ state := State.Connecting cf2, connector := (C.connect s addr).1 },
        Except.ok conn) := by
  have h := drive_resolve_then_connect C R k m rf rf2 addr s cf2 (Except.ok conn) h1 h2
  simpa [mapErr] using h

/-- Witness for C1 on the immediately ready doubles. -/
theorem connector_success_yields_establisher_connection_witness :
    drive readyConnect readyResolve 2
        { state := State.Resolving (), connector := () } =
      some ({ state := State.Connecting (), connector := () }, Except.ok 42) :=
  connector_success_yields_establisher_connection readyConnect readyResolve
    1 1 () () addrA () () 42 rfl rfl

/-- Claim C2: if the resolver's lookup future resolves to an error e, the
ConnectFuture fails with ConnectorError.Resolve e (the error carried
unmodified), and the establisher's connect method is never invoked: on the
invocation-recording establisher double the call count (and address log) of the
operation's establisher copy is unchanged. -/
theorem resolve_error_skips_connect
    (C0 : ConnectService σS σCF SocketAddr ρ εC) (R : Resolve σR σRF τ εR)
    (k : Nat) (rf rf2 : σRF) (e : εR) (cs : σS) (n : Nat) (l : List SocketAddr)
    (h : runFut R.pollF k rf = some (rf2, Except.error e)) :
    drive C0.counting R k
        { state := State.Resolving rf, connector := (cs, n, l) } =
      some ({ state := State.Resolving rf2, connector := (cs, n, l) },
        Except.error (ConnectorError.Resolve e)) := by
  induction k generalizing rf with
  | zero => simp [runFut] at h
  | succ k ih =>
    rcases hr : R.pollF rf with ⟨rf1, r⟩
    rcases r with e0 | a
    · simp [runFut, hr] at h
      obtain ⟨hrf, he⟩ := h
      subst hrf; subst he
      rw [drive_succ_error C0.counting R k _ _ _
        (poll_resolving_error C0.counting R rf rf1 (cs, n, l) e0 hr)]
    · rcases a with addr | _
      · simp [runFut, hr] at h
      · simp [runFut, hr] at h
        rw [drive_succ_notReady C0.counting R k _ _
          (poll_resolving_notReady C0.counting R rf rf1 (cs, n, l) hr)]
        exact ih rf1 h

/-- Witness for C2: failing resolver double, establisher call count stays 0. -/
theorem resolve_error_skips_connect_witness :
    drive readyConnect.counting errResolve 1
        { state := State.Resolving (), connector := ((), 0, []) } =
      some ({ state := State.Resolving (), connector := ((), 0, []) },
        Except.error (ConnectorError.Resolve 3)) :=
  resolve_error_skips_connect readyConnect errResolve 1 () () 3 () 0 [] rfl

/-- Claim C3: if resolution yields an address but the connect future fails with
e, the operation fails with ConnectorError.Connect e, and on the
invocation-recording establisher double exactly one connect call was made,
with exactly the resolved address. -/
theorem connect_error_single_attempt
    (C0 : ConnectService σS σCF SocketAddr ρ εC) (R : Resolve σR σRF τ εR)
    (k m : Nat) (rf rf2 : σRF) (addr : SocketAddr) (cs : σS) (cf2 : σCF) (e : εC)
    (h1 : runFut R.pollF k rf = some (rf2, Except.ok addr))
    (h2 : runFut C0.pollF m (C0.connect cs addr).2 = some (cf2, Except.error e)) :
    drive C0.counting R (k + m)
        { state := State.Resolving rf, connector := (cs, 0, []) } =
      some ({ state := State.Connecting cf2,
              connector := ((C0.connect cs addr).1, 1, [addr]) },
        Except.error (ConnectorError.Connect e)) := by
  have h := drive_resolve_then_connect C0.counting R k m rf rf2 addr (cs, 0, [])
    cf2 (Except.error e) h1 h2
  simpa [mapErr, ConnectService.counting] using h

/-- Witness for C3: ready resolver plus failing establisher double; exactly one
recorded connect call, on addrA. -/
theorem connect_error_single_attempt_witness :
    drive errConnect.counting readyResolve 2
        { state := State.Resolving (), connector := ((), 0, []) } =
      some ({ state := State.Connecting (), connector := ((), 1, [addrA]) },
        Except.error (ConnectorError.Connect 5)) :=
  connect_error_single_attempt errConnect readyResolve 1 1 () () addrA () () 5
    rfl rfl

/-- Claim C4: a single poll invocation that finds the lookup future immediately
ready with an address starts the establisher's connect future and polls it in
that same invocation; when that connect future is also immediately ready, the
one poll call returns the final connection. -/
theorem single_poll_crosses_state_boundary
    (C : ConnectService σS σCF SocketAddr ρ εC) (R : Resolve σR σRF τ εR)
    (rf rf2 : σRF) (addr : SocketAddr) (s : σS) (cf2 : σCF) (conn : ρ)
    (h1 : R.pollF rf = (rf2, Except.ok (Async.Ready addr)))
    (h2 : C.pollF (C.connect s addr).2 = (cf2, Except.ok (Async.Ready conn))) :
    ConnectFuture.poll C R { state := State.Resolving rf, connector := s } =
      ({ state := State.Connecting cf2, connector := (C.connect s addr).1 },
       Except.ok (Async.Ready conn)) := by
  rw [poll_resolving_ready C R rf rf2 s addr h1, h2]
  rfl

/-- Witness for C4: both doubles immediately ready; one poll returns 42. -/
theorem single_poll_crosses_state_boundary_witness :
    ConnectFuture.poll readyConnect readyResolve
        { state := State.Resolving (), connector := () } =
      ({ state := State.Connecting (), connector := () },
       Except.ok (Async.Ready 42)) :=
  single_poll_crosses_state_boundary readyConnect readyResolve
    () () addrA () () 42 rfl rfl

/-- One poll step preserves the connect-call counter invariant of the
invocation-recording establisher: the counter reads c while the operation is
Resolving and c + 1 once it is Connecting. -/
theorem poll_counting_counter (C0 : ConnectService σS σCF SocketAddr ρ εC)
    (R : Resolve σR σRF τ εR) (c : Nat)
    (f : ConnectFuture σRF σCF (σS × Nat × List SocketAddr))
    (h : f.connector.2.1 = cond f.state.isConnecting (c + 1) c) :
    (ConnectFuture.poll C0.counting R f).1.connector.2.1 =
      cond (ConnectFuture.poll C0.counting R f).1.state.isConnecting (c + 1) c := by
  rcases f with ⟨st, cs, cnt, lst⟩
  cases st with
  | Resolving rf =>
    simp [State.isConnecting] at h
    rcases hr : R.pollF rf with ⟨rf1, r⟩
    rcases r with e | a
    · simp [ConnectFuture.poll, hr, State.isConnecting, h]
    · rcases a with addr | _
      · simp [ConnectFuture.poll, hr, ConnectService.counting,
          State.isConnecting, h]
      · simp [ConnectFuture.poll, hr, State.isConnecting, h]
  | Connecting cf =>
    simp [State.isConnecting] at h
    simp [ConnectFuture.poll, ConnectService.counting, State.isConnecting, h]

/-- The counter invariant holds after any number of poll steps. -/
theorem stepN_counting_counter (C0 : ConnectService σS σCF SocketAddr ρ εC)
    (R : Resolve σR σRF τ εR) (c : Nat) :
    ∀ (n : Nat) (f : ConnectFuture σRF σCF (σS × Nat × List SocketAddr)),
      f.connector.2.1 = cond f.state.isConnecting (c + 1) c →
      (stepN C0.counting R n f).connector.2.1 =
        cond (stepN C0.counting R n f).state.isConnecting (c + 1) c := by
  intro n
  induction n with
  | zero => intro f h; exact h
  | succ n ih =>
    intro f h
    exact ih (ConnectFuture.poll C0.counting R f).1
      (poll_counting_counter C0 R c f h)

/-- Claim C5: per Connect Operation the establisher is never invoked before
resolution has succeeded, there is exactly one lookup invocation, and at most
one connect invocation.  Formally, on the invocation-recording doubles: the
operation built by Connector::connect bumps the lookup count by exactly one
(and the ConnectFuture holds no reference to the resolver, so no further
lookup can occur), and after any number of external polls the connect-call
count of the operation's establisher copy is 0 while the state is Resolving
(the only state in which resolution has not yet succeeded) and 1 once it is
Connecting — never more. -/
theorem connect_only_after_resolution
    (C0 : ConnectService σS σCF SocketAddr ρ εC) (R0 : Resolve σR σRF τ εR)
    (cs : σS) (r : σR) (nR : Nat) (lR : List τ) (t : τ) :
    (Connector.connectImpl R0.counting
        { connect := (cs, 0, ([] : List SocketAddr)), resolver := (r, nR, lR) } t :
        Connector (σS × Nat × List SocketAddr) (σR × Nat × List τ) ×
          ConnectFuture σRF σCF (σS × Nat × List SocketAddr)).1.resolver.2.1 =
        nR + 1 ∧
    ∀ k : Nat,
      (stepN C0.counting R0.counting k
          (Connector.connectImpl R0.counting
            { connect := (cs, 0, ([] : List SocketAddr)),
              resolver := (r, nR, lR) } t).2).connector.2.1 =
        cond (stepN C0.counting R0.counting k
            (Connector.connectImpl R0.counting
              { connect := (cs, 0, ([] : List SocketAddr)),
                resolver := (r, nR, lR) } t).2).state.isConnecting 1 0 := by
  constructor
  · rfl
  · intro k
    exact stepN_counting_counter C0 R0.counting 0 k _ rfl

/-- Claim C6: Connector::connect(target) performs exactly one lookup, passing
the given target, copies the establisher for the operation's exclusive use,
and returns a ConnectFuture whose state is Resolving holding the fresh lookup
handle, having polled nothing: with the lookup-recording, poll-counting
resolver double the lookup log gains exactly [target], the returned future's
lookup handle carries poll count 0, no connect handle exists (the state is the
Resolving variant), and the connector field is the copied establisher value. -/
theorem connector_connect_initial_state (R0 : Resolve σR σRF τ εR)
    (cs : σS) (r : σR) (nR : Nat) (lR : List τ) (t : τ) :
    (Connector.connectImpl (Resolve.pollCounting (Resolve.counting R0))
        { connect := cs, resolver := (r, nR, lR) } t :
        Connector σS (σR × Nat × List τ) ×
          ConnectFuture (σRF × Nat) σCF σS) =
      ({ connect := cs, resolver := ((R0.lookup r t).1, nR + 1, lR ++ [t]) },
       { state := State.Resolving ((R0.lookup r t).2, 0), connector := cs }) :=
  rfl

/-- Claim C7: a State value is exactly one of Resolving and Connecting, and
poll never moves a ConnectFuture from Connecting back to Resolving: from a
Connecting state the successor state is again Connecting (holding the repolled
connect handle), so the only possible state change is Resolving to Connecting. -/
theorem states_exclusive_and_one_directional
    (C : ConnectService σS σCF SocketAddr ρ εC) (R : Resolve σR σRF τ εR)
    (f : ConnectFuture σRF σCF σS) (cf : σCF)
    (h : f.state = State.Connecting cf) :
    (∀ st : State σRF σCF, st.isResolving = !st.isConnecting) ∧
    (ConnectFuture.poll C R f).1.state = State.Connecting (C.pollF cf).1 := by
  constructor
  · intro st
    cases st with
    | Resolving rf => rfl
    | Connecting cf0 => rfl
  · rcases f with ⟨st, s⟩
    simp only at h
    subst h
    rfl

/-- Witness for C7 on a concrete Connecting-state future. -/
theorem states_exclusive_and_one_directional_witness :
    (∀ st : State Unit Unit, st.isResolving = !st.isConnecting) ∧
    (ConnectFuture.poll readyConnect readyResolve
        { state := State.Connecting (), connector := () }).1.state =
      State.Connecting () :=
  states_exclusive_and_one_directional readyConnect readyResolve
    { state := State.Connecting (), connector := () } () rfl

/-- Claim C10: the loop inside ConnectFuture::poll always returns within two
iterations (the continue branch is taken at most once): with any iteration
budget of at least two, the loop returns, and its answer is the one computed
by the two-iteration unrolling poll. -/
theorem pollLoop_two_iterations
    (C : ConnectService σS σCF SocketAddr ρ εC) (R : Resolve σR σRF τ εR) :
    ∀ (n : Nat) (f : ConnectFuture σRF σCF σS),
      ConnectFuture.pollLoop C R (n + 1 + 1) f =
        ((ConnectFuture.poll C R f).1, some (ConnectFuture.poll C R f).2) := by
  intro n f
  rcases f with ⟨st, s⟩
  cases st with
  | Resolving rf =>
    rcases hr : R.pollF rf with ⟨rf1, r⟩
    rcases r with e | a
    · simp [ConnectFuture.pollLoop, ConnectFuture.poll, hr]
    · rcases a with addr | _
      · simp [ConnectFuture.pollLoop, ConnectFuture.poll, hr]
      · simp [ConnectFuture.pollLoop, ConnectFuture.poll, hr]
  | Connecting cf =>
    simp [ConnectFuture.pollLoop, ConnectFuture.poll]

/-! Doubles for the concrete scenario of claim C8: the lookup future is not
ready on its first poll and ready with 10.0.0.5:443 on the next; the connect
future for that address is not ready on its first poll and ready with the stub
connection 7 on the next.  The future states count their own polls. -/

/-- Resolver double: one NotReady poll, then Ready 10.0.0.5:443. -/
def slowResolve : Resolve Unit Nat Unit Unit where
  lookup := fun _ _ => ((), 0)
  pollF := fun n =>
    if n = 0 then (1, Except.ok Async.NotReady)
    else (n + 1, Except.ok (Async.Ready addrA))

/-- Establisher double: one NotReady poll, then Ready with stub connection 7. -/
def slowConnect : ConnectService Unit (Nat × SocketAddr) SocketAddr Nat Unit where
  connect := fun _ a => ((), (0, a))
  pollF := fun p =>
    if p.1 = 0 then ((1, p.2), Except.ok Async.NotReady)
    else ((p.1 + 1, p.2), Except.ok (Async.Ready 7))

/-- Counterexample to claim C8 as stated: in the concrete scenario the
operation does NOT complete within two external advancement calls — the first
call returns not-ready from the lookup, and the second call crosses into
Connecting but returns the connect future's first not-ready, so two calls
produce no terminal result. -/
theorem scenario_two_advancement_calls_insufficient :
    drive slowConnect slowResolve 2
      (Connector.connectImpl slowResolve
        { connect := (), resolver := () } ()).2 = none := rfl

/-- Claim C8 as amended: in the concrete scenario the operation completes
after exactly three external advancement calls (the first two return
not-ready), with the stub connection as the final result, the resolved address
10.0.0.5:443 having been passed to the establisher. -/
theorem scenario_three_advancement_calls_complete :
    drive slowConnect slowResolve 3
      (Connector.connectImpl slowResolve
        { connect := (), resolver := () } ()).2 =
      some ({ state := State.Connecting (2, addrA), connector := () },
        Except.ok 7) := rfl

/-- Establisher double whose connect future yields a fresh value on every
poll: Ready 0, then Ready 1, and so on. -/
def flakyConnect : ConnectService Unit Nat SocketAddr Nat Unit where
  connect := fun _ _ => ((), 0)
  pollF := fun n => (n + 1, Except.ok (Async.Ready n))

/-- Counterexample to claim C9 as stated: a poll that has returned terminal
success does not consume the operation — the very same operation can be polled
again, and here the second poll even returns another terminal result (the
inner connect future is simply polled once more). -/
theorem poll_after_terminal_still_advances :
    (ConnectFuture.poll flakyConnect readyResolve
        { state := State.Connecting 0, connector := () }).2 =
      Except.ok (Async.Ready 0) ∧
    (ConnectFuture.poll flakyConnect readyResolve
        (ConnectFuture.poll flakyConnect readyResolve
          { state := State.Connecting 0, connector := () }).1).2 =
      Except.ok (Async.Ready 1) :=
  ⟨rfl, rfl⟩

/-- Claim C9 as amended: terminal outcomes are final results of the
advancement algorithm, but the code itself does not make them consume the
operation: after a poll of a Connecting-state operation has returned its
(possibly terminal) result, a further poll is still possible and simply
delegates to the connect handle again; consuming the operation after a
terminal outcome is left to the caller, per the futures contract. -/
theorem poll_after_terminal_delegates
    (C : ConnectService σS σCF SocketAddr ρ εC) (R : Resolve σR σRF τ εR)
    (f : ConnectFuture σRF σCF σS) (cf : σCF)
    (h : f.state = State.Connecting cf) :
    (ConnectFuture.poll C R (ConnectFuture.poll C R f).1).2 =
      mapErr ConnectorError.Connect (C.pollF (C.pollF cf).1).2 := by
  rcases f with ⟨st, s⟩
  simp only at h
  subst h
  rfl

/-- Witness for the amended C9 on the flaky establisher double. -/
theorem poll_after_terminal_delegates_witness :
    (ConnectFuture.poll flakyConnect readyResolve
        (ConnectFuture.poll flakyConnect readyResolve
          { state := State.Connecting 0, connector := () }).1).2 =
      Except.ok (Async.Ready 1) :=
  poll_after_terminal_delegates flakyConnect readyResolve
    { state := State.Connecting 0, connector := () } 0 rfl

end TowerResolve
